import Mathlib

/-
Verification development for the UWB antenna-delay calibration class
(pyuwbcalib/uwbcalibrate.py, class UwbCalibrate).

Modelling conventions:
 * numpy float arrays are modelled as lists of exact rationals; where IEEE
   special values (NaN, ±inf) can arise (division by zero in the skew gain
   and everything downstream of it) values live in `RFloat`, an extended
   rational type with the IEEE propagation rules for the operations used.
 * Python attribute lookup on attributes that the constructor may not have
   assigned is modelled with `Option` fields plus `getattrE`; function-local
   variables that are only conditionally bound are modelled with `Option`
   plus `requireLocal`.  Fallible operations return `Except PyError`.
 * `np.linalg.norm` values are represented by their squares (norms are
   nonnegative and x -> x^2 is injective there, so equalities and
   disequalities of printed norms correspond exactly to those of the squares).
 * the string dictionary keys "i->j" are modelled as the pair (i, j); the
   source's `int(key.partition("-")[0])` / `int(key.partition(">")[2])`
   recover exactly these two components for the keys the class builds.
 * `np.linalg.lstsq` is external library code (scipy/numpy are collaborators,
   not part of this repository); the solver is therefore a parameter of
   `calibrate_antennas`.
-/

/-- Extended rationals modelling IEEE floats: finite values are exact
rationals, plus signed infinity and NaN.  `inf true` is +inf. -/
inductive RFloat where
  | fin (q : ℚ)
  | inf (pos : Bool)
  | nan
deriving DecidableEq, Repr

namespace RFloat

def isnan : RFloat → Bool
  | nan => true
  | _ => false

def neg : RFloat → RFloat
  | fin q => fin (-q)
  | inf s => inf (!s)
  | nan => nan

def add : RFloat → RFloat → RFloat
  | nan, _ => nan
  | _, nan => nan
  | fin a, fin b => fin (a + b)
  | fin _, inf s => inf s
  | inf s, fin _ => inf s
  | inf s, inf t => if s = t then inf s else nan

def sub (x y : RFloat) : RFloat := add x (neg y)

def mul : RFloat → RFloat → RFloat
  | nan, _ => nan
  | _, nan => nan
  | fin a, fin b => fin (a * b)
  | fin a, inf s => if a = 0 then nan else inf (s == decide (0 < a))
  | inf s, fin a => if a = 0 then nan else inf (s == decide (0 < a))
  | inf s, inf t => inf (s == t)

/-- IEEE division; a zero rational denominator behaves as +0. -/
def div : RFloat → RFloat → RFloat
  | nan, _ => nan
  | _, nan => nan
  | fin a, fin b =>
      if b = 0 then (if a = 0 then nan else inf (decide (0 < a))) else fin (a / b)
  | fin _, inf _ => fin 0
  | inf s, fin b => if b = 0 then inf s else inf (s == decide (0 < b))
  | inf _, inf _ => nan

end RFloat

/-- Elementwise division of two finite float values (numpy array division). -/
def divQ (a b : ℚ) : RFloat := RFloat.div (RFloat.fin a) (RFloat.fin b)

/-- source: `_c = 299702547`, the speed of light. -/
def speed_c : ℚ := 299702547

/-- source: `max_time_ns = 2**32 * (1 / 499200000 / 128) * 1e9`, the
wrap period of the uint32 hardware clock in nanoseconds. -/
def max_time_ns : ℚ := 2 ^ 32 * (1 / 499200000 / 128) * 1000000000

/-- The delta-wrap correction rule: source `x[x < 0] = x[x < 0] + max_time_ns`
applied to one entry (used for dt, Ra1, Ra2, Db1, Db2). -/
def wrap_correct (d : ℚ) : ℚ := if d < 0 then d + max_time_ns else d

def wrap_correct_list (xs : List ℚ) : List ℚ := xs.map wrap_correct

/-- np.abs, written out so that it evaluates by kernel reduction; it agrees
with the mathlib absolute value (npAbs_eq_abs below). -/
def npAbs (x : ℚ) : ℚ := if x < 0 then -x else x

/-- source: `_find_mocap_gaps`.  diff_ts = np.abs of consecutive
differences; gap where diff > 10e7; returned indices are argwhere(gap) + 1,
in order. -/
def find_mocap_gaps (mocap_ts : List ℚ) : List ℕ :=
  ((List.range (mocap_ts.length - 1)).filter
    (fun i => decide ((100000000 : ℚ) < npAbs (mocap_ts.getD (i + 1) 0 - mocap_ts.getD i 0)))).map
    (fun i => i + 1)

/-- Callers pad the gap list with 0 and the length and use consecutive
pairs as segment bounds (source lines 127-134, 192-197, 213-218). -/
def segBounds (gaps : List ℕ) (n : ℕ) : List (ℕ × ℕ) :=
  let bs := 0 :: (gaps ++ [n])
  bs.zip bs.tail

/-- Column j of the tabulated data (rows are lists of rationals). -/
def col (m : List (List ℚ)) (j : ℕ) : List ℚ := m.map (fun row => row.getD j 0)

/-- Python pySlice xs[b:e]. -/
def pySlice (xs : List ℚ) (b e : ℕ) : List ℚ := (xs.drop b).take (e - b)

/-- np.mean (the segments it is applied to are always nonempty). -/
def meanQ (xs : List ℚ) : ℚ := xs.sum / (xs.length : ℚ)

/-- np.round(x, 0): round half to even, as numpy does. -/
def np_round_half_even (x : ℚ) : ℚ :=
  let f : ℤ := Int.floor x
  let r : ℚ := x - (f : ℚ)
  if r < 1 / 2 then (f : ℚ)
  else if 1 / 2 < r then ((f + 1 : ℤ) : ℚ)
  else if f % 2 = 0 then (f : ℚ) else ((f + 1 : ℤ) : ℚ)

/-- scipy.stats.mode: the most frequent value; ties broken towards the
smallest value. -/
def statsMode (xs : List ℚ) : ℚ :=
  xs.foldl
    (fun best v =>
      if xs.count best < xs.count v ∨ (xs.count best = xs.count v ∧ v < best) then v else best)
    (xs.headD 0)

/-- The segment-relative wrap correction applied to D1/D2 (source lines
195-231): per segment, round to the nearest multiple of 1e6 ns, subtract the
segment mode, and add (resp. subtract) `max_time_ns` where the deviation is
below -1e3 (resp. above 1e3).  The per-segment in-place writes reassemble the
whole array because the padded bounds partition the index range. -/
def segment_wrap_correct (bounds : List (ℕ × ℕ)) (D : List ℚ) : List ℚ :=
  bounds.flatMap (fun be =>
    let seg := pySlice D be.1 be.2
    let rounded := seg.map (fun x => np_round_half_even (x / 1000000) * 1000000)
    let m := statsMode rounded
    let dev := rounded.map (fun x => x - m)
    (seg.zip dev).map (fun p =>
      if p.2 < -1000 then p.1 + max_time_ns
      else if 1000 < p.2 then p.1 - max_time_ns
      else p.1))

/-- source lines 236-240: union of the four per-entry outlier tests
(|x| > thresh), with the same left-to-right association of np.logical_or. -/
def outlier_mask (thresh : ℚ) (Ra1 Ra2 Db1 Db2 : List ℚ) : List Bool :=
  List.zipWith or
    (List.zipWith or
      (List.zipWith or
        (Ra1.map (fun x => decide (thresh < npAbs x)))
        (Ra2.map (fun x => decide (thresh < npAbs x))))
      (Db1.map (fun x => decide (thresh < npAbs x))))
    (Db2.map (fun x => decide (thresh < npAbs x)))

/-- np.delete(xs, mask, 0) with a boolean mask: drop entries where the mask
is true. -/
def np_delete_mask {α : Type} (mask : List Bool) (xs : List α) : List α :=
  ((mask.zip xs).filter (fun p => !p.1)).map (fun p => p.2)

/-- Boolean-mask indexing xs[mask]: keep entries where the mask is true. -/
def boolSelect {α : Type} (mask : List Bool) (xs : List α) : List α :=
  ((mask.zip xs).filter (fun p => p.1)).map (fun p => p.2)

/-- Names of the attributes / locals whose lookup can fail. -/
inductive PyAttr where
  | board_ids
  | data
  | tx1
  | D1
  | D2
deriving DecidableEq, Repr

inductive PyError where
  | attributeError (a : PyAttr)
  | unboundLocalError (a : PyAttr)
  | keyError
  | indexError
  | assertionError
deriving DecidableEq, Repr

/-- Reading an object attribute that may not have been assigned. -/
def getattrE {α : Type} (o : Option α) (a : PyAttr) : Except PyError α :=
  match o with
  | some v => Except.ok v
  | none => Except.error (PyError.attributeError a)

/-- Reading a function-local variable that may not have been bound. -/
def requireLocal {α : Type} (o : Option α) (a : PyAttr) : Except PyError α :=
  match o with
  | some v => Except.ok v
  | none => Except.error (PyError.unboundLocalError a)

/-- Python list indexing. -/
def ldx {α : Type} (l : List α) (i : ℕ) : Except PyError α :=
  match l.get? i with
  | some v => Except.ok v
  | none => Except.error PyError.indexError

def pyAssert (b : Bool) : Except PyError Unit :=
  if b then Except.ok () else Except.error PyError.assertionError

/-- One per-pair dataset as stored in `self.data` (the dict built by
`_extract_data`; the two ids live in the dictionary key). -/
structure PairData where
  dt : List ℚ
  gt : List ℚ
  Ra1 : List ℚ
  Ra2 : List ℚ
  Db1 : List ℚ
  Db2 : List ℚ
  D1 : List ℚ
  D2 : List ℚ
deriving DecidableEq, Repr

/-- The dataset invariant: all measurement sequences used by calibration
have one entry per retained exchange. -/
def PairData.uniform (pd : PairData) : Prop :=
  pd.gt.length = pd.Ra2.length ∧ pd.Ra1.length = pd.Ra2.length ∧
    pd.Db1.length = pd.Ra2.length ∧ pd.Db2.length = pd.Ra2.length

instance (pd : PairData) : Decidable pd.uniform := by
  unfold PairData.uniform; infer_instance

/-- The `processed_data` argument of the constructor (only the attributes the
constructor copies). -/
structure ProcessedData where
  num_of_formations : ℤ
  tag_ids : List ℤ
  twr_type : ℤ
  num_meas : ℤ
  r : List ℚ
  phi : List ℚ
  mean_gt_distance : ℚ
  ts_data : List (List ℚ)
  mean_range_meas : ℚ

/-- The object state.  `board_ids` and `data` are `Option` because the
constructor never assigns them (it assigns `tag_ids` and `ts_data`); Python
would raise AttributeError on reading them until some other code sets them. -/
structure UwbCalibrate where
  average : Bool
  static : Bool
  thresh : ℚ
  num_of_formations : ℤ
  tag_ids : List ℤ
  twr_type : ℤ
  num_meas : ℤ
  num_of_tags : ℤ
  r : List ℚ
  phi : List ℚ
  mean_gt_distance : ℚ
  ts_data : List (List ℚ)
  mean_range_meas : ℚ
  board_ids : Option (List ℤ)
  data : Option (List ((ℤ × ℤ) × PairData))

/-- source `__init__` (lines 33-53).  Note line 47 copies
`num_of_formations` into `num_of_tags`; `board_ids` and `data` are never
assigned. -/
def mkUwbCalibrate (p : ProcessedData) (average static : Bool) (thresh : ℚ) : UwbCalibrate :=
  { average := average
    static := static
    thresh := thresh
    num_of_formations := p.num_of_formations
    tag_ids := p.tag_ids
    twr_type := p.twr_type
    num_meas := p.num_meas
    num_of_tags := p.num_of_formations
    r := p.r
    phi := p.phi
    mean_gt_distance := p.mean_gt_distance
    ts_data := p.ts_data
    mean_range_meas := p.mean_range_meas
    board_ids := none
    data := none }

/-- First-match lookup in the insertion-ordered dict `self.data`. -/
def dictGet : List ((ℤ × ℤ) × PairData) → (ℤ × ℤ) → Option PairData
  | [], _ => none
  | kv :: rest, key => if kv.1 = key then some kv.2 else dictGet rest key

def dictGetE (d : List ((ℤ × ℤ) × PairData)) (key : ℤ × ℤ) : Except PyError PairData :=
  match dictGet d key with
  | some v => Except.ok v
  | none => Except.error PyError.keyError

/-- The result dict of `_extract_data`. -/
structure ExtractOut where
  initiating_id : ℤ
  target_id : ℤ
  dt : List ℚ
  gt : List ℚ
  Ra1 : List ℚ
  Ra2 : List ℚ
  Db1 : List ℚ
  Db2 : List ℚ
  D1 : List ℚ
  D2 : List ℚ
deriving DecidableEq, Repr

/-- The local variables of `_extract_data` after the two mode branches
(lines 118-169): `gt, Ra1, Ra2, Db1, Db2` are initialised to empty arrays,
`tx1`, `D1`, `D2` are only bound inside a branch. -/
structure ExtractLocals where
  gt : List ℚ
  Ra1 : List ℚ
  Ra2 : List ℚ
  Db1 : List ℚ
  Db2 : List ℚ
  tx1 : Option (List ℚ)
  D1 : Option (List ℚ)
  D2 : Option (List ℚ)

/-- The two mode branches of `_extract_data`.  Column layout of the sliced
table: 0 initiator id, 1 target id, 2 mocap timestamp, 3 ground truth,
4-9 tx1, rx1, tx2, rx2, tx3, rx3.
 * static ∧ average (lines 125-150): one mean per gap segment; the loop
   variable `tx1` leaks as the last segment's pySlice; `D1`, `D2` stay unbound.
 * static ∧ ¬average (lines 152-169): per-sample rows, and `D1 = rx1 - tx1`,
   `D2 = rx2 - tx2` are additionally bound.
 * ¬static: neither branch runs; the empty initialisers survive and
   `tx1`, `D1`, `D2` stay unbound. -/
def extract_branch (static average : Bool) (m : List (List ℚ)) (bounds : List (ℕ × ℕ)) :
    ExtractLocals :=
  if static && average then
    { gt := bounds.map (fun be => meanQ (pySlice (col m 3) be.1 be.2))
      Ra1 := bounds.map (fun be =>
        meanQ (List.zipWith (fun a b => a - b) (pySlice (col m 7) be.1 be.2)
          (pySlice (col m 4) be.1 be.2)))
      Ra2 := bounds.map (fun be =>
        meanQ (List.zipWith (fun a b => a - b) (pySlice (col m 9) be.1 be.2)
          (pySlice (col m 7) be.1 be.2)))
      Db1 := bounds.map (fun be =>
        meanQ (List.zipWith (fun a b => a - b) (pySlice (col m 6) be.1 be.2)
          (pySlice (col m 5) be.1 be.2)))
      Db2 := bounds.map (fun be =>
        meanQ (List.zipWith (fun a b => a - b) (pySlice (col m 8) be.1 be.2)
          (pySlice (col m 6) be.1 be.2)))
      tx1 := bounds.getLast?.map (fun be => pySlice (col m 4) be.1 be.2)
      D1 := none
      D2 := none }
  else if static then
    { gt := col m 3
      Ra1 := List.zipWith (fun a b => a - b) (col m 7) (col m 4)
      Ra2 := List.zipWith (fun a b => a - b) (col m 9) (col m 7)
      Db1 := List.zipWith (fun a b => a - b) (col m 6) (col m 5)
      Db2 := List.zipWith (fun a b => a - b) (col m 8) (col m 6)
      tx1 := some (col m 4)
      D1 := some (List.zipWith (fun a b => a - b) (col m 5) (col m 4))
      D2 := some (List.zipWith (fun a b => a - b) (col m 7) (col m 6)) }
  else
    { gt := [], Ra1 := [], Ra2 := [], Db1 := [], Db2 := [],
      tx1 := none, D1 := none, D2 := none }

/-- source `_extract_data` (lines 55-261).  `my_data` is the numeric table
after the (external) file read and column selection; the id columns are
asserted against `self.board_ids` exactly as in the source.  The loops over
gap segments for D1/D2 dereference the locals `D1`/`D2` as their first
action and always run at least once (the padded bounds list is never
empty), so the dereference is modelled unconditionally. -/
def extract_data (self : UwbCalibrate) (my_data : List (List ℚ))
    (initiating_idx target_idx : ℕ) : Except PyError ExtractOut := do
  let bids ← getattrE self.board_ids PyAttr.board_ids
  let initiating_id ← ldx bids initiating_idx
  let target_id ← ldx bids target_idx
  let row0 ← match my_data with
    | [] => Except.error PyError.indexError
    | r :: _ => Except.ok r
  let _ ← pyAssert (decide (row0.getD 0 0 = (initiating_id : ℚ)))
  let _ ← pyAssert (decide (row0.getD 1 0 = (target_id : ℚ)))
  let bounds := segBounds (find_mocap_gaps (col my_data 2)) my_data.length
  let locs := extract_branch self.static self.average my_data bounds
  let tx1 ← requireLocal locs.tx1 PyAttr.tx1
  let dt := wrap_correct_list (0 :: List.zipWith (fun a b => a - b) tx1.tail tx1)
  let Ra1 := wrap_correct_list locs.Ra1
  let Ra2 := wrap_correct_list locs.Ra2
  let Db1 := wrap_correct_list locs.Db1
  let Db2 := wrap_correct_list locs.Db2
  let D1raw ← requireLocal locs.D1 PyAttr.D1
  let D1 := segment_wrap_correct bounds D1raw
  let D2raw ← requireLocal locs.D2 PyAttr.D2
  let D2 := segment_wrap_correct bounds D2raw
  let mask := outlier_mask self.thresh Ra1 Ra2 Db1 Db2
  pure
    { initiating_id := initiating_id
      target_id := target_id
      dt := np_delete_mask mask dt
      gt := np_delete_mask mask locs.gt
      Ra1 := np_delete_mask mask Ra1
      Ra2 := np_delete_mask mask Ra2
      Db1 := np_delete_mask mask Db1
      Db2 := np_delete_mask mask Db2
      D1 := np_delete_mask mask D1
      D2 := np_delete_mask mask D2 }

/-- Core of `_calculate_skew_gain` (lines 304-310): `Ra2 / Ra2` when
`twr_type == 0`, else `Ra2 / Db2`, elementwise numpy division. -/
def skew_core (twr : ℤ) (pd : PairData) : List RFloat :=
  if twr = 0 then List.zipWith divQ pd.Ra2 pd.Ra2
  else List.zipWith divQ pd.Ra2 pd.Db2

/-- source `_calculate_skew_gain`: lookup of the pair dataset through
`self.board_ids` and `self.data`, then the elementwise ratio. -/
def calculate_skew_gain (self : UwbCalibrate) (initiating_idx target_idx : ℕ) :
    Except PyError (List RFloat) := do
  let bids ← getattrE self.board_ids PyAttr.board_ids
  let a ← ldx bids initiating_idx
  let b ← ldx bids target_idx
  let d ← getattrE self.data PyAttr.data
  let pd ← dictGetE d (a, b)
  pure (skew_core self.twr_type pd)

/-- source `_setup_A_matrix` (lines 312-334): A = zeros(n, 3);
A[:, initiating_idx] += 0.5; A[:, target_idx] = 0.5 * K.  A row is a
function from the three delay columns to values. -/
def setup_A_matrix (K : List RFloat) (initiating_idx target_idx : Fin 3) :
    List (Fin 3 → RFloat) :=
  K.map (fun k =>
    let row0 : Fin 3 → RFloat := fun _ => RFloat.fin 0
    let row1 : Fin 3 → RFloat :=
      Function.update row0 initiating_idx (RFloat.add (row0 initiating_idx) (RFloat.fin (1 / 2)))
    Function.update row1 target_idx (RFloat.mul (RFloat.fin (1 / 2)) k))

/-- Core of `_setup_b_vector` (line 362):
`b = 1 / _c * gt * 1e9 - 0.5 * Ra1 + 0.5 * K * Db1`, elementwise. -/
def setup_b_core : List ℚ → List ℚ → List ℚ → List RFloat → List RFloat
  | g :: gs, a :: ras, d :: dbs, k :: ks =>
    RFloat.add
      (RFloat.sub
        (RFloat.mul
          (RFloat.mul (RFloat.div (RFloat.fin 1) (RFloat.fin speed_c)) (RFloat.fin g))
          (RFloat.fin 1000000000))
        (RFloat.mul (RFloat.fin (1 / 2)) (RFloat.fin a)))
      (RFloat.mul (RFloat.mul (RFloat.fin (1 / 2)) k) (RFloat.fin d))
    :: setup_b_core gs ras dbs ks
  | _, _, _, _ => []

/-- source `_setup_b_vector` (lines 336-364): pair lookup then the
elementwise observation. -/
def setup_b_vector (self : UwbCalibrate) (K : List RFloat)
    (initiating_idx target_idx : ℕ) : Except PyError (List RFloat) := do
  let bids ← getattrE self.board_ids PyAttr.board_ids
  let a ← ldx bids initiating_idx
  let b ← ldx bids target_idx
  let d ← getattrE self.data PyAttr.data
  let pd ← dictGetE d (a, b)
  pure (setup_b_core pd.gt pd.Ra1 pd.Db1 K)

/-- Square of one entry. -/
def sqRF (x : RFloat) : RFloat := RFloat.mul x x

/-- Square of np.linalg.norm of a vector (line 416 prints norm(b)). -/
def sumSqRF (xs : List RFloat) : RFloat :=
  xs.foldr (fun x acc => RFloat.add (sqRF x) acc) (RFloat.fin 0)

/-- Row contribution to the square of line 417's
`np.linalg.norm(b - A * np.array([x[0], x[1], x[2]]))`: numpy broadcasts b
(shape (n,1)) against the elementwise product A * x (shape (n,3)), so entry
(i,j) of the matrix under the norm is b_i - A_ij * x_j. -/
def rowBroadcastSq (row : Fin 3 → RFloat) (bi : RFloat) (x : Fin 3 → RFloat) : RFloat :=
  RFloat.add
    (RFloat.add
      (sqRF (RFloat.sub bi (RFloat.mul (row 0) (x 0))))
      (sqRF (RFloat.sub bi (RFloat.mul (row 1) (x 1)))))
    (sqRF (RFloat.sub bi (RFloat.mul (row 2) (x 2))))

/-- Square of the Frobenius norm actually printed as the second diagnostic. -/
def frobSq (A : List (Fin 3 → RFloat)) (b : List RFloat) (x : Fin 3 → RFloat) : RFloat :=
  ((A.zip b).map (fun p => rowBroadcastSq p.1 p.2 x)).foldr RFloat.add (RFloat.fin 0)

/-- One row's residual b_i - (A x)_i with the true matrix-vector product
(what the specification's residual norm refers to). -/
def rowResidual (row : Fin 3 → RFloat) (bi : RFloat) (x : Fin 3 → RFloat) : RFloat :=
  RFloat.sub bi
    (RFloat.add (RFloat.add (RFloat.mul (row 0) (x 0)) (RFloat.mul (row 1) (x 1)))
      (RFloat.mul (row 2) (x 2)))

/-- Square of the residual norm described by the specification:
the square of the 2-norm of b - A·x (matrix-vector product). -/
def residualSq (A : List (Fin 3 → RFloat)) (b : List RFloat) (x : Fin 3 → RFloat) : RFloat :=
  ((A.zip b).map (fun p => sqRF (rowResidual p.1 p.2 x))).foldr RFloat.add (RFloat.fin 0)

/-- The calibration output: the per-module delays (keyed by module id, in
the fixed order of board_ids) and the two printed diagnostic norms,
represented by their squares. -/
structure CalibOut where
  delays : List (ℤ × RFloat)
  diag1 : RFloat
  diag2 : RFloat
deriving DecidableEq, Repr

/-- source `calibrate_antennas` (lines 383-423).  The three pair systems use
index pairs (0,1), (0,2), (1,2); the stacked system drops rows whose
observation is NaN (`nan_idx = ~np.isnan(b)`); `np.linalg.lstsq` is external
library code and so is passed in as `solver`; the two printed norms are
recorded (as squares) in the output. -/
def calibrate_antennas (self : UwbCalibrate)
    (solver : List (Fin 3 → RFloat) → List RFloat → Fin 3 → RFloat) :
    Except PyError CalibOut := do
  let K1 ← calculate_skew_gain self 0 1
  let A1 := setup_A_matrix K1 0 1
  let b1 ← setup_b_vector self K1 0 1
  let K2 ← calculate_skew_gain self 0 2
  let A2 := setup_A_matrix K2 0 2
  let b2 ← setup_b_vector self K2 0 2
  let K3 ← calculate_skew_gain self 1 2
  let A3 := setup_A_matrix K3 1 2
  let b3 ← setup_b_vector self K3 1 2
  let A := A1 ++ A2 ++ A3
  let b := b1 ++ b2 ++ b3
  let mask := b.map (fun v => !v.isnan)
  let Af := boolSelect mask A
  let bf := boolSelect mask b
  let x := solver Af bf
  let bids ← getattrE self.board_ids PyAttr.board_ids
  let i0 ← ldx bids 0
  let i1 ← ldx bids 1
  let i2 ← ldx bids 2
  pure
    { delays := [(i0, x 0), (i1, x 1), (i2, x 2)]
      diag1 := sumSqRF bf
      diag2 := frobSq Af bf x }

/-- source `correct_antenna_delay` (lines 425-445): for every stored pair
where the module is the initiator add the delay to Ra1, where it is the
target subtract it from Db1. -/
def correct_antenna_delay (self : UwbCalibrate) (id : ℤ) (delay : ℚ) :
    Except PyError UwbCalibrate := do
  let d ← getattrE self.data PyAttr.data
  pure
    { self with
      data := some (d.map (fun kv =>
        if kv.1.1 = id then (kv.1, { kv.2 with Ra1 := kv.2.Ra1.map (fun v => v + delay) })
        else if kv.1.2 = id then (kv.1, { kv.2 with Db1 := kv.2.Db1.map (fun v => v - delay) })
        else kv)) }

/-- The reverse double-sided TWR range formula of `compute_range_meas`
(lines 461-469), general case, elementwise over Ra1, Ra2, Db2, Db1:
`0.5 * _c * (Ra1 - (Ra2 / Db2) * Db1) / 1e9`. -/
def rangeFormulaGen : List ℚ → List ℚ → List ℚ → List ℚ → List RFloat
  | a :: ras, r2 :: ra2s, d2 :: db2s, d1 :: db1s =>
    RFloat.div
      (RFloat.mul (RFloat.mul (RFloat.fin (1 / 2)) (RFloat.fin speed_c))
        (RFloat.sub (RFloat.fin a) (RFloat.mul (divQ r2 d2) (RFloat.fin d1))))
      (RFloat.fin 1000000000)
    :: rangeFormulaGen ras ra2s db2s db1s
  | _, _, _, _ => []

/-- The per-pair range computation of `compute_range_meas`:
type 0 uses `0.5 * _c * (Ra1 - Db1) / 1e9`, otherwise the skew-corrected
general formula. -/
def rangeFormula (twr : ℤ) (pd : PairData) : List RFloat :=
  if twr = 0 then
    List.zipWith
      (fun a b =>
        RFloat.div
          (RFloat.mul (RFloat.mul (RFloat.fin (1 / 2)) (RFloat.fin speed_c))
            (RFloat.sub (RFloat.fin a) (RFloat.fin b)))
          (RFloat.fin 1000000000))
      pd.Ra1 pd.Db1
  else rangeFormulaGen pd.Ra1 pd.Ra2 pd.Db2 pd.Db1

/-- The key scan of `compute_range_meas` (lines 452-470): return at the
first stored key matching the two ids in either direction; `None` (here
`none`) when no key matches. -/
def findRange (twr : ℤ) : List ((ℤ × ℤ) × PairData) → ℤ → ℤ → Option (List RFloat)
  | [], _, _ => none
  | kv :: rest, id1, id2 =>
    if (kv.1.1 = id1 ∧ kv.1.2 = id2) ∨ (kv.1.1 = id2 ∧ kv.1.2 = id1) then
      some (rangeFormula twr kv.2)
    else findRange twr rest id1 id2

/-- source `compute_range_meas` (lines 447-470). -/
def compute_range_meas (self : UwbCalibrate) (id1 id2 : ℤ) :
    Except PyError (Option (List RFloat)) := do
  let d ← getattrE self.data PyAttr.data
  pure (findRange self.twr_type d id1 id2)

/-- Written from the specification, for comparison with `setup_A_matrix`:
a design-matrix row has 0.5 in the initiator's delay column, 0.5*K in the
target's delay column and 0 in the remaining column. -/
def spec_A_row (initiating_idx target_idx : Fin 3) (k : RFloat) : Fin 3 → RFloat :=
  fun j =>
    if j = initiating_idx then RFloat.fin (1 / 2)
    else if j = target_idx then RFloat.mul (RFloat.fin (1 / 2)) k
    else RFloat.fin 0

/-- Written from the specification, for comparison with `setup_b_core`:
the observation is `(ground_truth / speed_of_light) * 1e9 - 0.5*Ra1 +
0.5*K*Db1`, elementwise. -/
def spec_b_vector : List ℚ → List ℚ → List ℚ → List RFloat → List RFloat
  | g :: gs, a :: ras, d :: dbs, k :: ks =>
    RFloat.add
      (RFloat.sub
        (RFloat.mul (RFloat.div (RFloat.fin g) (RFloat.fin speed_c)) (RFloat.fin 1000000000))
        (RFloat.mul (RFloat.fin (1 / 2)) (RFloat.fin a)))
      (RFloat.mul (RFloat.mul (RFloat.fin (1 / 2)) k) (RFloat.fin d))
    :: spec_b_vector gs ras dbs ks
  | _, _, _, _ => []

/-- The stacked design matrix of the three pair systems, written out from
the pieces exactly as `calibrate_antennas` builds it. -/
def stackA (twr : ℤ) (p1 p2 p3 : PairData) : List (Fin 3 → RFloat) :=
  setup_A_matrix (skew_core twr p1) 0 1 ++ setup_A_matrix (skew_core twr p2) 0 2 ++
    setup_A_matrix (skew_core twr p3) 1 2

/-- The stacked observation vector of the three pair systems. -/
def stackB (twr : ℤ) (p1 p2 p3 : PairData) : List RFloat :=
  setup_b_core p1.gt p1.Ra1 p1.Db1 (skew_core twr p1) ++
    setup_b_core p2.gt p2.Ra1 p2.Db1 (skew_core twr p2) ++
      setup_b_core p3.gt p3.Ra1 p3.Db1 (skew_core twr p3)

/-- Written from the specification: the stacked rows paired with their
observations, with every row whose observation is NaN removed. -/
def keptRows (twr : ℤ) (p1 p2 p3 : PairData) : List ((Fin 3 → RFloat) × RFloat) :=
  ((stackA twr p1 p2 p3).zip (stackB twr p1 p2 p3)).filter (fun q => !q.2.isnan)

/-- A fully defaulted instance used as the base of the concrete test
instances below (board_ids and data unset, as after the constructor). -/
def baseSelf : UwbCalibrate :=
  { average := false, static := true, thresh := 50000000
    num_of_formations := 0, tag_ids := [], twr_type := 0, num_meas := 0
    num_of_tags := 0, r := [], phi := [], mean_gt_distance := 0
    ts_data := [], mean_range_meas := 0, board_ids := none, data := none }

/-- Pair dataset whose Ra2 contains a zero entry (skew-gain test input). -/
def pdC3 : PairData :=
  { dt := [], gt := [1], Ra1 := [0], Ra2 := [0], Db1 := [0], Db2 := [5], D1 := [], D2 := [] }

def selfC3 : UwbCalibrate :=
  { baseSelf with
    twr_type := 0
    board_ids := some [1, 2, 3]
    data := some [((1, 2), pdC3)] }

/-- A two-row sliced data table: initiator id 1, target id 2, mocap
timestamps 0 and 1 (no gap), ground truth 5, then tx1 rx1 tx2 rx2 tx3 rx3. -/
def matC4 : List (List ℚ) :=
  [[1, 2, 0, 5, 10, 11, 12, 13, 14, 15],
   [1, 2, 1, 5, 20, 21, 22, 23, 24, 25]]

/-- An instance configured for averaged-static extraction, with board_ids
supplied so that extraction gets past the attribute lookups. -/
def selfC4 : UwbCalibrate :=
  { baseSelf with average := true, static := true, board_ids := some [1, 2, 3] }

/-- Pair dataset with Db2 = 0 but Ra2 and Db1 nonzero: the skew gain is
+inf and the observation is +inf (not NaN). -/
def p12cex : PairData :=
  { dt := [], gt := [0], Ra1 := [0], Ra2 := [1], Db1 := [1], Db2 := [0], D1 := [], D2 := [] }

/-- A benign pair dataset (K = 1, all observations finite). -/
def pNcex : PairData :=
  { dt := [], gt := [0], Ra1 := [0], Ra2 := [1], Db1 := [0], Db2 := [1], D1 := [], D2 := [] }

/-- A solver stub returning the vector (1, 1, 1). -/
def constSolver : List (Fin 3 → RFloat) → List RFloat → Fin 3 → RFloat :=
  fun _ _ _ => RFloat.fin 1

/-- ground truth whose time of flight is exactly 1 ns: _c / 1e9 metres. -/
def gtOne : ℚ := speed_c / 1000000000

/-- Pair dataset with unit skew gain, zero Ra1/Db1 and ground truth gtOne,
so the pair's single observation is exactly 1. -/
def pC10 : PairData :=
  { dt := [], gt := [gtOne], Ra1 := [0], Ra2 := [1], Db1 := [0], Db2 := [1], D1 := [], D2 := [] }

/-- Instance whose stacked, filtered system is A = [[.5,.5,0],[.5,0,.5],
[0,.5,.5]], b = [1,1,1], solved exactly by x = (1,1,1). -/
def selfC10 : UwbCalibrate :=
  { baseSelf with
    twr_type := 1
    board_ids := some [1, 2, 3]
    data := some [((1, 2), pC10), ((1, 3), pC10), ((2, 3), pC10)] }

/-- Instance for the nan-filter theorems' witnesses: three benign pairs. -/
def selfW : UwbCalibrate :=
  { baseSelf with
    twr_type := 1
    board_ids := some [1, 2, 3]
    data := some [((1, 2), pNcex), ((1, 3), pNcex), ((2, 3), pNcex)] }

/-- Instance containing the Db2 = 0 pair for the nan-filter counterexample. -/
def selfC7 : UwbCalibrate :=
  { baseSelf with
    twr_type := 1
    board_ids := some [1, 2, 3]
    data := some [((1, 2), p12cex), ((1, 3), pNcex), ((2, 3), pNcex)] }

theorem npAbs_eq_abs (x : ℚ) : npAbs x = |x| := by
  unfold npAbs
  by_cases h : x < 0
  · rw [if_pos h, abs_of_neg h]
  · rw [if_neg h, abs_of_nonneg (le_of_not_lt h)]

theorem np_delete_mask_cons {α : Type} (b : Bool) (m : List Bool) (x : α) (xs : List α) :
    np_delete_mask (b :: m) (x :: xs) =
      if b then np_delete_mask m xs else x :: np_delete_mask m xs := by
  cases b <;> simp [np_delete_mask]

theorem np_delete_mask_nil_right {α : Type} (m : List Bool) :
    np_delete_mask m ([] : List α) = [] := by
  cases m <;> rfl

theorem boolSelect_cons {α : Type} (b : Bool) (m : List Bool) (x : α) (xs : List α) :
    boolSelect (b :: m) (x :: xs) =
      if b then x :: boolSelect m xs else boolSelect m xs := by
  cases b <;> simp [boolSelect]

theorem np_delete_mask_sublist {α : Type} (m : List Bool) (xs : List α) :
    List.Sublist (np_delete_mask m xs) xs := by
  induction m generalizing xs with
  | nil => simp [np_delete_mask]
  | cons b mtl ih =>
    cases xs with
    | nil => simp [np_delete_mask_nil_right]
    | cons x xtl =>
      rw [np_delete_mask_cons]
      cases b with
      | true => simpa using List.Sublist.cons x (ih xtl)
      | false => simpa using List.Sublist.cons₂ x (ih xtl)

theorem np_delete_mask_length_eq {α β : Type} (m : List Bool) (xs : List α) (ys : List β)
    (h : xs.length = ys.length) :
    (np_delete_mask m xs).length = (np_delete_mask m ys).length := by
  induction m generalizing xs ys with
  | nil => simp [np_delete_mask]
  | cons b mtl ih =>
    cases xs with
    | nil =>
      cases ys with
      | nil => rfl
      | cons y ytl => simp at h
    | cons x xtl =>
      cases ys with
      | nil => simp at h
      | cons y ytl =>
        have h2 : xtl.length = ytl.length := by simpa using h
        rw [np_delete_mask_cons, np_delete_mask_cons]
        cases b with
        | true => simpa using ih xtl ytl h2
        | false => simpa using ih xtl ytl h2

theorem np_delete_mask_zip {α β : Type} (m : List Bool) (xs : List α) (ys : List β)
    (h : xs.length = ys.length) :
    (np_delete_mask m xs).zip (np_delete_mask m ys) = np_delete_mask m (xs.zip ys) := by
  induction m generalizing xs ys with
  | nil => simp [np_delete_mask]
  | cons b mtl ih =>
    cases xs with
    | nil => simp [np_delete_mask_nil_right, np_delete_mask]
    | cons x xtl =>
      cases ys with
      | nil => simp at h
      | cons y ytl =>
        have h2 : xtl.length = ytl.length := by simpa using h
        rw [List.zip_cons_cons, np_delete_mask_cons, np_delete_mask_cons, np_delete_mask_cons]
        cases b with
        | true => simpa using ih xtl ytl h2
        | false => simpa using ih xtl ytl h2

theorem np_delete_mask_map_pred {α : Type} (p : α → Bool) (l : List α) :
    ∀ x ∈ np_delete_mask (l.map p) l, p x = false := by
  induction l with
  | nil => intro x hx; simp [np_delete_mask] at hx
  | cons a tl ih =>
    intro x hx
    rw [List.map_cons, np_delete_mask_cons] at hx
    by_cases hp : p a = true
    · rw [if_pos hp] at hx
      exact ih x hx
    · rw [if_neg hp] at hx
      rcases List.mem_cons.mp hx with rfl | hmem
      · simpa using hp
      · exact ih x hmem

theorem outlier_mask_eq_rows (t : ℚ) (Ra1 Ra2 Db1 Db2 : List ℚ)
    (h2 : Ra2.length = Ra1.length) (h3 : Db1.length = Ra1.length)
    (h4 : Db2.length = Ra1.length) :
    outlier_mask t Ra1 Ra2 Db1 Db2 =
      (Ra1.zip (Ra2.zip (Db1.zip Db2))).map
        (fun r =>
          ((decide (t < npAbs r.1) || decide (t < npAbs r.2.1)) ||
              decide (t < npAbs r.2.2.1)) ||
            decide (t < npAbs r.2.2.2)) := by
  induction Ra1 generalizing Ra2 Db1 Db2 with
  | nil =>
    cases Ra2 with
    | nil =>
      cases Db1 with
      | nil => cases Db2 <;> rfl
      | cons _ _ => simp at h3
    | cons _ _ => simp at h2
  | cons a atl ih =>
    cases Ra2 with
    | nil => simp at h2
    | cons b btl =>
      cases Db1 with
      | nil => simp at h3
      | cons c ctl =>
        cases Db2 with
        | nil => simp at h4
        | cons d dtl =>
          have h2' : btl.length = atl.length := by simpa using h2
          have h3' : ctl.length = atl.length := by simpa using h3
          have h4' : dtl.length = atl.length := by simpa using h4
          simp only [outlier_mask, List.map_cons, List.zipWith_cons_cons,
            List.zip_cons_cons]
          rw [← outlier_mask]
          rw [ih btl ctl dtl h2' h3' h4']

theorem boolSelect_proj_fst {α β : Type} (p : β → Bool) :
    ∀ (xs : List α) (ys : List β), xs.length = ys.length →
      boolSelect (ys.map p) xs = ((xs.zip ys).filter (fun q => p q.2)).map Prod.fst := by
  intro xs
  induction xs with
  | nil =>
    intro ys h
    cases ys with
    | nil => rfl
    | cons y ytl => simp at h
  | cons x xtl ih =>
    intro ys h
    cases ys with
    | nil => simp at h
    | cons y ytl =>
      have h2 : xtl.length = ytl.length := by simpa using h
      rw [List.map_cons, boolSelect_cons, List.zip_cons_cons]
      cases hp : p y with
      | true => simp [hp, ih ytl h2]
      | false => simp [hp, ih ytl h2]

theorem boolSelect_proj_snd {α β : Type} (p : β → Bool) :
    ∀ (xs : List α) (ys : List β), xs.length = ys.length →
      boolSelect (ys.map p) ys = ((xs.zip ys).filter (fun q => p q.2)).map Prod.snd := by
  intro xs
  induction xs with
  | nil =>
    intro ys h
    cases ys with
    | nil => rfl
    | cons y ytl => simp at h
  | cons x xtl ih =>
    intro ys h
    cases ys with
    | nil => simp at h
    | cons y ytl =>
      have h2 : xtl.length = ytl.length := by simpa using h
      rw [List.map_cons, boolSelect_cons, List.zip_cons_cons]
      cases hp : p y with
      | true => simp [hp, ih ytl h2]
      | false => simp [hp, ih ytl h2]

theorem setup_b_core_eq_spec (gt Ra1 Db1 : List ℚ) (K : List RFloat) :
    setup_b_core gt Ra1 Db1 K = spec_b_vector gt Ra1 Db1 K := by
  induction gt generalizing Ra1 Db1 K with
  | nil => cases Ra1 <;> cases Db1 <;> cases K <;> rfl
  | cons g gs ih =>
    cases Ra1 with
    | nil => rfl
    | cons a ras =>
      cases Db1 with
      | nil => rfl
      | cons d dbs =>
        cases K with
        | nil => rfl
        | cons k ks =>
          have hc : speed_c ≠ 0 := by norm_num [speed_c]
          have hx :
              RFloat.mul
                (RFloat.mul (RFloat.div (RFloat.fin 1) (RFloat.fin speed_c)) (RFloat.fin g))
                (RFloat.fin 1000000000) =
              RFloat.mul (RFloat.div (RFloat.fin g) (RFloat.fin speed_c))
                (RFloat.fin 1000000000) := by
            simp only [RFloat.div, RFloat.mul, if_neg hc]
            congr 1
            ring
          simp only [setup_b_core, spec_b_vector]
          rw [hx, ih]

theorem setup_A_matrix_length (K : List RFloat) (i t : Fin 3) :
    (setup_A_matrix K i t).length = K.length := by
  simp [setup_A_matrix]

theorem setup_b_core_length (gt Ra1 Db1 : List ℚ) (K : List RFloat)
    (h1 : gt.length = K.length) (h2 : Ra1.length = K.length) (h3 : Db1.length = K.length) :
    (setup_b_core gt Ra1 Db1 K).length = K.length := by
  induction K generalizing gt Ra1 Db1 with
  | nil =>
    cases gt with
    | nil => rfl
    | cons _ _ => simp at h1
  | cons k ks ih =>
    cases gt with
    | nil => simp at h1
    | cons g gs =>
      cases Ra1 with
      | nil => simp at h2
      | cons a ras =>
        cases Db1 with
        | nil => simp at h3
        | cons d dbs =>
          have h1' : gs.length = ks.length := by simpa using h1
          have h2' : ras.length = ks.length := by simpa using h2
          have h3' : dbs.length = ks.length := by simpa using h3
          simp only [setup_b_core, List.length_cons]
          rw [ih gs ras dbs h1' h2' h3']

theorem skew_core_length (twr : ℤ) (pd : PairData) (h : pd.Db2.length = pd.Ra2.length) :
    (skew_core twr pd).length = pd.Ra2.length := by
  unfold skew_core
  split <;> simp [List.length_zipWith, h]

theorem pair_b_length (twr : ℤ) (pd : PairData) (hu : pd.uniform) :
    (setup_b_core pd.gt pd.Ra1 pd.Db1 (skew_core twr pd)).length = (skew_core twr pd).length := by
  have hk := skew_core_length twr pd hu.2.2.2
  exact setup_b_core_length _ _ _ _ (by rw [hk, hu.1]) (by rw [hk, hu.2.1])
    (by rw [hk, hu.2.2.1])

theorem stack_length_eq (twr : ℤ) (p1 p2 p3 : PairData)
    (hu1 : p1.uniform) (hu2 : p2.uniform) (hu3 : p3.uniform) :
    (stackA twr p1 p2 p3).length = (stackB twr p1 p2 p3).length := by
  simp only [stackA, stackB, List.length_append, setup_A_matrix_length,
    pair_b_length twr p1 hu1, pair_b_length twr p2 hu2, pair_b_length twr p3 hu3]

theorem kept_snd_not_nan (twr : ℤ) (p1 p2 p3 : PairData) :
    ∀ v ∈ (keptRows twr p1 p2 p3).map Prod.snd, v.isnan = false := by
  intro v hv
  rcases List.mem_map.mp hv with ⟨q, hq, rfl⟩
  have h := List.of_mem_filter hq
  simpa using h

theorem filter_eq_single_of_iff {p : ℕ → Bool} :
    ∀ {l : List ℕ}, l.Nodup → ∀ {a : ℕ}, a ∈ l → (∀ x ∈ l, p x = true ↔ x = a) →
      l.filter p = [a] := by
  intro l
  induction l with
  | nil => intro _ a ha; cases ha
  | cons h tl ih =>
    intro hnd a ha hiff
    rcases List.mem_cons.mp ha with rfl | hmem
    · rw [List.filter_cons_of_pos ((hiff a (List.mem_cons_self a tl)).mpr rfl)]
      have : tl.filter p = [] := by
        rw [List.filter_eq_nil_iff]
        intro x hx hpx
        have hxa : x = a := (hiff x (List.mem_cons_of_mem a hx)).mp hpx
        exact (List.nodup_cons.mp hnd).1 (hxa ▸ hx)
      rw [this]
    · have hha : h ≠ a := by
        intro he
        exact (List.nodup_cons.mp hnd).1 (he ▸ hmem)
      have hph : ¬p h = true := by
        intro hp
        exact hha ((hiff h (List.mem_cons_self h tl)).mp hp)
      rw [List.filter_cons_of_neg hph]
      exact ih (List.nodup_cons.mp hnd).2 hmem
        (fun x hx => hiff x (List.mem_cons_of_mem h hx))

theorem findRange_symm (twr : ℤ) (d : List ((ℤ × ℤ) × PairData)) (id1 id2 : ℤ) :
    findRange twr d id1 id2 = findRange twr d id2 id1 := by
  induction d with
  | nil => rfl
  | cons kv rest ih =>
    show (if (kv.1.1 = id1 ∧ kv.1.2 = id2) ∨ (kv.1.1 = id2 ∧ kv.1.2 = id1) then _ else _) = _
    exact if_congr or_comm rfl ih

theorem calibrate_antennas_spec (self : UwbCalibrate)
    (solver : List (Fin 3 → RFloat) → List RFloat → Fin 3 → RFloat)
    (a0 a1 a2 : ℤ) (d : List ((ℤ × ℤ) × PairData)) (p1 p2 p3 : PairData)
    (hb : self.board_ids = some [a0, a1, a2]) (hd : self.data = some d)
    (h1 : dictGet d (a0, a1) = some p1) (h2 : dictGet d (a0, a2) = some p2)
    (h3 : dictGet d (a1, a2) = some p3)
    (hu1 : p1.uniform) (hu2 : p2.uniform) (hu3 : p3.uniform) :
    calibrate_antennas self solver = Except.ok
      { delays := [
          (a0, solver ((keptRows self.twr_type p1 p2 p3).map Prod.fst)
                ((keptRows self.twr_type p1 p2 p3).map Prod.snd) 0),
          (a1, solver ((keptRows self.twr_type p1 p2 p3).map Prod.fst)
                ((keptRows self.twr_type p1 p2 p3).map Prod.snd) 1),
          (a2, solver ((keptRows self.twr_type p1 p2 p3).map Prod.fst)
                ((keptRows self.twr_type p1 p2 p3).map Prod.snd) 2)]
        diag1 := sumSqRF ((keptRows self.twr_type p1 p2 p3).map Prod.snd)
        diag2 := frobSq ((keptRows self.twr_type p1 p2 p3).map Prod.fst)
            ((keptRows self.twr_type p1 p2 p3).map Prod.snd)
            (solver ((keptRows self.twr_type p1 p2 p3).map Prod.fst)
              ((keptRows self.twr_type p1 p2 p3).map Prod.snd)) } := by
  have hlen := stack_length_eq self.twr_type p1 p2 p3 hu1 hu2 hu3
  have hfst := boolSelect_proj_fst (fun v : RFloat => !v.isnan)
    (stackA self.twr_type p1 p2 p3) (stackB self.twr_type p1 p2 p3) hlen
  have hsnd := boolSelect_proj_snd (fun v : RFloat => !v.isnan)
    (stackA self.twr_type p1 p2 p3) (stackB self.twr_type p1 p2 p3) hlen
  simp only [stackA, stackB] at hfst hsnd
  simp only [calibrate_antennas, calculate_skew_gain, setup_b_vector, hb, hd, getattrE,
    ldx, List.get?, dictGetE, h1, h2, h3, bind, Except.bind, pure, Except.pure,
    keptRows, stackA, stackB]
  rw [hfst, hsnd]

/-- C5: the delta-wrap correction rule maps every negative delta d to
d + max_time_ns, which is non-negative whenever |d| < max_time_ns; it leaves
every non-negative delta unchanged; and applying the rule to an
already-corrected value is a no-op. -/
theorem c5_delta_wrap_rule (d : ℚ) :
    (d < 0 → wrap_correct d = d + max_time_ns) ∧
    (0 ≤ d → wrap_correct d = d) ∧
    (|d| < max_time_ns → 0 ≤ wrap_correct d) ∧
    (|d| < max_time_ns → wrap_correct (wrap_correct d) = wrap_correct d) := by
  by_cases h : d < 0
  · have h1 : wrap_correct d = d + max_time_ns := if_pos h
    refine ⟨fun _ => h1, fun h0 => absurd h (not_lt.mpr h0), fun hb => ?_, fun hb => ?_⟩
    · rw [h1]
      have := (abs_lt.mp hb).1
      linarith
    · rw [h1]
      have hnn : ¬(d + max_time_ns < 0) := by
        have := (abs_lt.mp hb).1
        linarith
      exact if_neg hnn
  · have h1 : wrap_correct d = d := if_neg h
    refine ⟨fun hc => absurd hc h, fun _ => h1, fun _ => ?_, fun _ => by rw [h1, h1]⟩
    rw [h1]
    exact le_of_not_lt h

theorem c5_witness :
    wrap_correct (-5) = -5 + max_time_ns ∧ wrap_correct 7 = 7 ∧
      0 ≤ wrap_correct (-5) ∧ wrap_correct (wrap_correct (-5)) = wrap_correct (-5) := by
  have habs : |(-5 : ℚ)| < max_time_ns := by
    simp only [max_time_ns]
    norm_num
  exact ⟨(c5_delta_wrap_rule (-5)).1 (by norm_num),
    (c5_delta_wrap_rule 7).2.1 (by norm_num),
    (c5_delta_wrap_rule (-5)).2.2.1 habs,
    (c5_delta_wrap_rule (-5)).2.2.2 habs⟩

/-- C8: gap detection returns exactly [k] when the unique consecutive
difference exceeding 10e7 is the one ending at index k, returns [] when all
consecutive differences are below the threshold, and never contains 0. -/
theorem c8_gap_detection (ts : List ℚ) (k : ℕ) :
    ((0 < k ∧ k - 1 < ts.length - 1 ∧
        ∀ i, i < ts.length - 1 →
          (((100000000 : ℚ) < npAbs (ts.getD (i + 1) 0 - ts.getD i 0)) ↔ i + 1 = k)) →
      find_mocap_gaps ts = [k]) ∧
    ((∀ i, i < ts.length - 1 → npAbs (ts.getD (i + 1) 0 - ts.getD i 0) < 100000000) →
      find_mocap_gaps ts = []) ∧
    (0 : ℕ) ∉ find_mocap_gaps ts := by
  refine ⟨?_, ?_, ?_⟩
  · rintro ⟨hk, hrange, hiff⟩
    unfold find_mocap_gaps
    have hfil :
        (List.range (ts.length - 1)).filter
          (fun i =>
            decide ((100000000 : ℚ) < npAbs (ts.getD (i + 1) 0 - ts.getD i 0))) =
          [k - 1] := by
      apply filter_eq_single_of_iff (List.nodup_range _) (List.mem_range.mpr hrange)
      intro x hx
      rw [decide_eq_true_eq, hiff x (List.mem_range.mp hx)]
      omega
    rw [hfil]
    simp only [List.map_cons, List.map_nil]
    congr 1
    omega
  · intro hlt
    unfold find_mocap_gaps
    have hfil :
        (List.range (ts.length - 1)).filter
          (fun i =>
            decide ((100000000 : ℚ) < npAbs (ts.getD (i + 1) 0 - ts.getD i 0))) = [] := by
      rw [List.filter_eq_nil_iff]
      intro x hx
      simp only [decide_eq_true_eq, not_lt]
      exact le_of_lt (hlt x (List.mem_range.mp hx))
    rw [hfil]
    rfl
  · unfold find_mocap_gaps
    intro hmem
    rcases List.mem_map.mp hmem with ⟨i, _, hi⟩
    omega

theorem c8_witness :
    find_mocap_gaps [0, 0, 200000000, 200000000] = [2] ∧
      find_mocap_gaps [0, 1, 2] = [] ∧
      (0 : ℕ) ∉ find_mocap_gaps [0, 0, 200000000, 200000000] :=
  ⟨(c8_gap_detection [0, 0, 200000000, 200000000] 2).1
      ⟨by decide, by decide, by with_unfolding_all decide⟩,
    (c8_gap_detection [0, 1, 2] 0).2.1 (by with_unfolding_all decide),
    (c8_gap_detection [0, 0, 200000000, 200000000] 2).2.2⟩

/-- C2: on any instance produced by the constructor, each of the three public
operations raises AttributeError, because each reads board_ids and/or data,
which the constructor never assigns. -/
theorem c2_public_methods_attribute_error (p : ProcessedData) (av st : Bool) (th : ℚ)
    (solver : List (Fin 3 → RFloat) → List RFloat → Fin 3 → RFloat)
    (id : ℤ) (delay : ℚ) (id1 id2 : ℤ) :
    calibrate_antennas (mkUwbCalibrate p av st th) solver =
        Except.error (PyError.attributeError PyAttr.board_ids) ∧
      correct_antenna_delay (mkUwbCalibrate p av st th) id delay =
        Except.error (PyError.attributeError PyAttr.data) ∧
      compute_range_meas (mkUwbCalibrate p av st th) id1 id2 =
        Except.error (PyError.attributeError PyAttr.data) :=
  ⟨rfl, rfl, rfl⟩

/-- C3: with twr_type = 0 the skew gain is computed as Ra2 / Ra2, which is
NaN (not 1) at any zero Ra2 entry — contradicting the docstring "Gain set to
1 if twr_type == 0" and the claimed all-ones output. -/
theorem c3_type0_skew_gain_nan_at_zero :
    calculate_skew_gain selfC3 0 1 = Except.ok [RFloat.nan] ∧
      pdC3.Ra2 = [0] ∧ RFloat.nan ≠ RFloat.fin 1 :=
  ⟨rfl, rfl, by decide⟩

/-- C4: in averaged-static mode extraction does not succeed: the local D1 is
bound only in the static non-averaged branch, yet the segment-relative wrap
correction dereferences it unconditionally, so the method raises
UnboundLocalError even when board_ids is present and the id assertions pass. -/
theorem c4_averaged_static_extraction_raises :
    extract_data selfC4 matC4 0 1 = Except.error (PyError.unboundLocalError PyAttr.D1) := by
  with_unfolding_all rfl

/-- C9: compute_range_meas is symmetric in its two module-id arguments: the
key-matching condition is invariant under swapping id1 and id2, so the same
first stored pair (if any) is found in both calls. -/
theorem c9_compute_range_meas_symmetric (self : UwbCalibrate) (id1 id2 : ℤ) :
    compute_range_meas self id1 id2 = compute_range_meas self id2 id1 := by
  unfold compute_range_meas
  cases hd : self.data with
  | none => rfl
  | some d =>
    show Except.ok (findRange self.twr_type d id1 id2) =
      Except.ok (findRange self.twr_type d id2 id1)
    exact congrArg Except.ok (findRange_symm self.twr_type d id1 id2)

/-- C1: for each of the three index pairs used by calibrate_antennas, every
design-matrix row equals the specification row (0.5 in the initiator column,
0.5*K in the target column, 0 in the remaining column) and every observation
equals the specification observation (ground_truth / c) * 1e9 - 0.5*Ra1 +
0.5*K*Db1, for all stored rows. -/
theorem c1_design_rows_and_observations (K : List RFloat) (gt Ra1 Db1 : List ℚ)
    (i t : Fin 3)
    (hpair : (i, t) ∈ ([(0, 1), (0, 2), (1, 2)] : List (Fin 3 × Fin 3))) :
    setup_A_matrix K i t = K.map (spec_A_row i t) ∧
      setup_b_core gt Ra1 Db1 K = spec_b_vector gt Ra1 Db1 K := by
  have hne : i ≠ t := by
    simp only [List.mem_cons, Prod.mk.injEq, List.not_mem_nil, or_false] at hpair
    rcases hpair with ⟨rfl, rfl⟩ | ⟨rfl, rfl⟩ | ⟨rfl, rfl⟩ <;> decide
  refine ⟨?_, setup_b_core_eq_spec gt Ra1 Db1 K⟩
  unfold setup_A_matrix
  apply List.map_congr_left
  intro k _
  funext j
  show Function.update
      (Function.update (fun _ => RFloat.fin 0) i
        (RFloat.add (RFloat.fin 0) (RFloat.fin (1 / 2)))) t
      (RFloat.mul (RFloat.fin (1 / 2)) k) j = spec_A_row i t k j
  rw [Function.update_apply, Function.update_apply]
  unfold spec_A_row
  by_cases hjt : j = t
  · subst hjt
    rw [if_pos rfl, if_neg (Ne.symm hne), if_pos rfl]
  · rw [if_neg hjt]
    by_cases hji : j = i
    · subst hji
      rw [if_pos rfl, if_pos rfl]
      show RFloat.add (RFloat.fin 0) (RFloat.fin (1 / 2)) = RFloat.fin (1 / 2)
      simp only [RFloat.add]
      norm_num
    · rw [if_neg hji, if_neg hji, if_neg hjt]

theorem c1_witness :
    setup_A_matrix [RFloat.fin 2] 0 1 = [RFloat.fin 2].map (spec_A_row 0 1) ∧
      setup_b_core [1] [2] [3] [RFloat.fin 2] = spec_b_vector [1] [2] [3] [RFloat.fin 2] :=
  c1_design_rows_and_observations [RFloat.fin 2] [1] [2] [3] 0 1 (by decide)

/-- C6: after outlier removal with the union mask, every retained row has all
four delta magnitudes at most the threshold; the same mask is applied to all
eight parallel sequences, so the filtered sequences all have equal length and
each is an order-preserving sublist of its original. -/
theorem c6_outlier_removal (t : ℚ) (dt gt Ra1 Ra2 Db1 Db2 D1 D2 : List ℚ)
    (h2 : Ra2.length = Ra1.length) (h3 : Db1.length = Ra1.length)
    (h4 : Db2.length = Ra1.length) (h5 : dt.length = Ra1.length)
    (h6 : gt.length = Ra1.length) (h7 : D1.length = Ra1.length)
    (h8 : D2.length = Ra1.length) :
    (∀ row ∈ (np_delete_mask (outlier_mask t Ra1 Ra2 Db1 Db2) Ra1).zip
        ((np_delete_mask (outlier_mask t Ra1 Ra2 Db1 Db2) Ra2).zip
          ((np_delete_mask (outlier_mask t Ra1 Ra2 Db1 Db2) Db1).zip
            (np_delete_mask (outlier_mask t Ra1 Ra2 Db1 Db2) Db2))),
        npAbs row.1 ≤ t ∧ npAbs row.2.1 ≤ t ∧ npAbs row.2.2.1 ≤ t ∧ npAbs row.2.2.2 ≤ t) ∧
    ((np_delete_mask (outlier_mask t Ra1 Ra2 Db1 Db2) dt).length =
        (np_delete_mask (outlier_mask t Ra1 Ra2 Db1 Db2) Ra1).length ∧
      (np_delete_mask (outlier_mask t Ra1 Ra2 Db1 Db2) gt).length =
        (np_delete_mask (outlier_mask t Ra1 Ra2 Db1 Db2) Ra1).length ∧
      (np_delete_mask (outlier_mask t Ra1 Ra2 Db1 Db2) Ra2).length =
        (np_delete_mask (outlier_mask t Ra1 Ra2 Db1 Db2) Ra1).length ∧
      (np_delete_mask (outlier_mask t Ra1 Ra2 Db1 Db2) Db1).length =
        (np_delete_mask (outlier_mask t Ra1 Ra2 Db1 Db2) Ra1).length ∧
      (np_delete_mask (outlier_mask t Ra1 Ra2 Db1 Db2) Db2).length =
        (np_delete_mask (outlier_mask t Ra1 Ra2 Db1 Db2) Ra1).length ∧
      (np_delete_mask (outlier_mask t Ra1 Ra2 Db1 Db2) D1).length =
        (np_delete_mask (outlier_mask t Ra1 Ra2 Db1 Db2) Ra1).length ∧
      (np_delete_mask (outlier_mask t Ra1 Ra2 Db1 Db2) D2).length =
        (np_delete_mask (outlier_mask t Ra1 Ra2 Db1 Db2) Ra1).length) ∧
    (List.Sublist (np_delete_mask (outlier_mask t Ra1 Ra2 Db1 Db2) dt) dt ∧
      List.Sublist (np_delete_mask (outlier_mask t Ra1 Ra2 Db1 Db2) gt) gt ∧
      List.Sublist (np_delete_mask (outlier_mask t Ra1 Ra2 Db1 Db2) Ra1) Ra1 ∧
      List.Sublist (np_delete_mask (outlier_mask t Ra1 Ra2 Db1 Db2) Ra2) Ra2 ∧
      List.Sublist (np_delete_mask (outlier_mask t Ra1 Ra2 Db1 Db2) Db1) Db1 ∧
      List.Sublist (np_delete_mask (outlier_mask t Ra1 Ra2 Db1 Db2) Db2) Db2 ∧
      List.Sublist (np_delete_mask (outlier_mask t Ra1 Ra2 Db1 Db2) D1) D1 ∧
      List.Sublist (np_delete_mask (outlier_mask t Ra1 Ra2 Db1 Db2) D2) D2) := by
  refine ⟨?_, ?_, ?_⟩
  · have hzip1 : (np_delete_mask (outlier_mask t Ra1 Ra2 Db1 Db2) Db1).zip
        (np_delete_mask (outlier_mask t Ra1 Ra2 Db1 Db2) Db2) =
        np_delete_mask (outlier_mask t Ra1 Ra2 Db1 Db2) (Db1.zip Db2) :=
      np_delete_mask_zip _ _ _ (by rw [h3, h4])
    have hzip2 : (np_delete_mask (outlier_mask t Ra1 Ra2 Db1 Db2) Ra2).zip
        (np_delete_mask (outlier_mask t Ra1 Ra2 Db1 Db2) (Db1.zip Db2)) =
        np_delete_mask (outlier_mask t Ra1 Ra2 Db1 Db2) (Ra2.zip (Db1.zip Db2)) :=
      np_delete_mask_zip _ _ _ (by simp [List.length_zip, h2, h3, h4])
    have hzip3 : (np_delete_mask (outlier_mask t Ra1 Ra2 Db1 Db2) Ra1).zip
        (np_delete_mask (outlier_mask t Ra1 Ra2 Db1 Db2) (Ra2.zip (Db1.zip Db2))) =
        np_delete_mask (outlier_mask t Ra1 Ra2 Db1 Db2) (Ra1.zip (Ra2.zip (Db1.zip Db2))) :=
      np_delete_mask_zip _ _ _ (by simp [List.length_zip, h2, h3, h4])
    rw [hzip1, hzip2, hzip3, outlier_mask_eq_rows t Ra1 Ra2 Db1 Db2 h2 h3 h4]
    intro row hrow
    have hp := np_delete_mask_map_pred _ _ row hrow
    simp only [Bool.or_eq_false_iff, decide_eq_false_iff_not, not_lt] at hp
    exact ⟨hp.1.1.1, hp.1.1.2, hp.1.2, hp.2⟩
  · exact ⟨np_delete_mask_length_eq _ _ _ h5, np_delete_mask_length_eq _ _ _ h6,
      np_delete_mask_length_eq _ _ _ h2, np_delete_mask_length_eq _ _ _ h3,
      np_delete_mask_length_eq _ _ _ h4, np_delete_mask_length_eq _ _ _ h7,
      np_delete_mask_length_eq _ _ _ h8⟩
  · exact ⟨np_delete_mask_sublist _ _, np_delete_mask_sublist _ _,
      np_delete_mask_sublist _ _, np_delete_mask_sublist _ _,
      np_delete_mask_sublist _ _, np_delete_mask_sublist _ _,
      np_delete_mask_sublist _ _, np_delete_mask_sublist _ _⟩

theorem c6_witness :
    (∀ row ∈ (np_delete_mask (outlier_mask 5 [1, 7] [1, 7] [1, 7] [1, 7]) [1, 7]).zip
        ((np_delete_mask (outlier_mask 5 [1, 7] [1, 7] [1, 7] [1, 7]) [1, 7]).zip
          ((np_delete_mask (outlier_mask 5 [1, 7] [1, 7] [1, 7] [1, 7]) [1, 7]).zip
            (np_delete_mask (outlier_mask 5 [1, 7] [1, 7] [1, 7] [1, 7]) [1, 7]))),
        npAbs row.1 ≤ 5 ∧ npAbs row.2.1 ≤ 5 ∧ npAbs row.2.2.1 ≤ 5 ∧ npAbs row.2.2.2 ≤ 5) ∧
    ((np_delete_mask (outlier_mask 5 [1, 7] [1, 7] [1, 7] [1, 7]) [1, 7]).length =
        (np_delete_mask (outlier_mask 5 [1, 7] [1, 7] [1, 7] [1, 7]) [1, 7]).length ∧
      (np_delete_mask (outlier_mask 5 [1, 7] [1, 7] [1, 7] [1, 7]) [1, 7]).length =
        (np_delete_mask (outlier_mask 5 [1, 7] [1, 7] [1, 7] [1, 7]) [1, 7]).length ∧
      (np_delete_mask (outlier_mask 5 [1, 7] [1, 7] [1, 7] [1, 7]) [1, 7]).length =
        (np_delete_mask (outlier_mask 5 [1, 7] [1, 7] [1, 7] [1, 7]) [1, 7]).length ∧
      (np_delete_mask (outlier_mask 5 [1, 7] [1, 7] [1, 7] [1, 7]) [1, 7]).length =
        (np_delete_mask (outlier_mask 5 [1, 7] [1, 7] [1, 7] [1, 7]) [1, 7]).length ∧
      (np_delete_mask (outlier_mask 5 [1, 7] [1, 7] [1, 7] [1, 7]) [1, 7]).length =
        (np_delete_mask (outlier_mask 5 [1, 7] [1, 7] [1, 7] [1, 7]) [1, 7]).length ∧
      (np_delete_mask (outlier_mask 5 [1, 7] [1, 7] [1, 7] [1, 7]) [1, 7]).length =
        (np_delete_mask (outlier_mask 5 [1, 7] [1, 7] [1, 7] [1, 7]) [1, 7]).length ∧
      (np_delete_mask (outlier_mask 5 [1, 7] [1, 7] [1, 7] [1, 7]) [1, 7]).length =
        (np_delete_mask (outlier_mask 5 [1, 7] [1, 7] [1, 7] [1, 7]) [1, 7]).length) ∧
    (List.Sublist (np_delete_mask (outlier_mask 5 [1, 7] [1, 7] [1, 7] [1, 7]) [1, 7])
        ([1, 7] : List ℚ) ∧
      List.Sublist (np_delete_mask (outlier_mask 5 [1, 7] [1, 7] [1, 7] [1, 7]) [1, 7])
        ([1, 7] : List ℚ) ∧
      List.Sublist (np_delete_mask (outlier_mask 5 [1, 7] [1, 7] [1, 7] [1, 7]) [1, 7])
        ([1, 7] : List ℚ) ∧
      List.Sublist (np_delete_mask (outlier_mask 5 [1, 7] [1, 7] [1, 7] [1, 7]) [1, 7])
        ([1, 7] : List ℚ) ∧
      List.Sublist (np_delete_mask (outlier_mask 5 [1, 7] [1, 7] [1, 7] [1, 7]) [1, 7])
        ([1, 7] : List ℚ) ∧
      List.Sublist (np_delete_mask (outlier_mask 5 [1, 7] [1, 7] [1, 7] [1, 7]) [1, 7])
        ([1, 7] : List ℚ) ∧
      List.Sublist (np_delete_mask (outlier_mask 5 [1, 7] [1, 7] [1, 7] [1, 7]) [1, 7])
        ([1, 7] : List ℚ) ∧
      List.Sublist (np_delete_mask (outlier_mask 5 [1, 7] [1, 7] [1, 7] [1, 7]) [1, 7])
        ([1, 7] : List ℚ)) :=
  c6_outlier_removal 5 [1, 7] [1, 7] [1, 7] [1, 7] [1, 7] [1, 7] [1, 7] [1, 7]
    rfl rfl rfl rfl rfl rfl rfl

/-- C7 (amended): calibrate_antennas stacks the three pair systems and keeps
exactly the rows whose observation is not NaN (so no NaN observation reaches
the solver); a Db2 = 0 row is removed only when its observation is NaN — see
the counterexample for a Db2 = 0 row whose infinite observation survives. -/
theorem c7_nan_row_filter (self : UwbCalibrate)
    (solver : List (Fin 3 → RFloat) → List RFloat → Fin 3 → RFloat)
    (a0 a1 a2 : ℤ) (d : List ((ℤ × ℤ) × PairData)) (p1 p2 p3 : PairData)
    (hb : self.board_ids = some [a0, a1, a2]) (hd : self.data = some d)
    (h1 : dictGet d (a0, a1) = some p1) (h2 : dictGet d (a0, a2) = some p2)
    (h3 : dictGet d (a1, a2) = some p3)
    (hu1 : p1.uniform) (hu2 : p2.uniform) (hu3 : p3.uniform) :
    (calibrate_antennas self solver = Except.ok
      { delays := [
          (a0, solver ((keptRows self.twr_type p1 p2 p3).map Prod.fst)
                ((keptRows self.twr_type p1 p2 p3).map Prod.snd) 0),
          (a1, solver ((keptRows self.twr_type p1 p2 p3).map Prod.fst)
                ((keptRows self.twr_type p1 p2 p3).map Prod.snd) 1),
          (a2, solver ((keptRows self.twr_type p1 p2 p3).map Prod.fst)
                ((keptRows self.twr_type p1 p2 p3).map Prod.snd) 2)]
        diag1 := sumSqRF ((keptRows self.twr_type p1 p2 p3).map Prod.snd)
        diag2 := frobSq ((keptRows self.twr_type p1 p2 p3).map Prod.fst)
            ((keptRows self.twr_type p1 p2 p3).map Prod.snd)
            (solver ((keptRows self.twr_type p1 p2 p3).map Prod.fst)
              ((keptRows self.twr_type p1 p2 p3).map Prod.snd)) }) ∧
    ∀ v ∈ (keptRows self.twr_type p1 p2 p3).map Prod.snd, v.isnan = false :=
  ⟨calibrate_antennas_spec self solver a0 a1 a2 d p1 p2 p3 hb hd h1 h2 h3 hu1 hu2 hu3,
    kept_snd_not_nan self.twr_type p1 p2 p3⟩

theorem c7_witness :
    (calibrate_antennas selfW constSolver = Except.ok
      { delays := [
          (1, constSolver ((keptRows selfW.twr_type pNcex pNcex pNcex).map Prod.fst)
                ((keptRows selfW.twr_type pNcex pNcex pNcex).map Prod.snd) 0),
          (2, constSolver ((keptRows selfW.twr_type pNcex pNcex pNcex).map Prod.fst)
                ((keptRows selfW.twr_type pNcex pNcex pNcex).map Prod.snd) 1),
          (3, constSolver ((keptRows selfW.twr_type pNcex pNcex pNcex).map Prod.fst)
                ((keptRows selfW.twr_type pNcex pNcex pNcex).map Prod.snd) 2)]
        diag1 := sumSqRF ((keptRows selfW.twr_type pNcex pNcex pNcex).map Prod.snd)
        diag2 := frobSq ((keptRows selfW.twr_type pNcex pNcex pNcex).map Prod.fst)
            ((keptRows selfW.twr_type pNcex pNcex pNcex).map Prod.snd)
            (constSolver ((keptRows selfW.twr_type pNcex pNcex pNcex).map Prod.fst)
              ((keptRows selfW.twr_type pNcex pNcex pNcex).map Prod.snd)) }) ∧
    ∀ v ∈ (keptRows selfW.twr_type pNcex pNcex pNcex).map Prod.snd, v.isnan = false :=
  c7_nan_row_filter selfW constSolver 1 2 3
    [((1, 2), pNcex), ((1, 3), pNcex), ((2, 3), pNcex)] pNcex pNcex pNcex
    rfl rfl rfl rfl rfl (by decide) (by decide) (by decide)

/-- C7 counterexample: a pair whose Db2 entry is 0 with Ra2 and Db1 nonzero
yields an infinite (not NaN) observation; the NaN filter keeps all three
stacked rows, so the Db2 = 0 row does enter the least-squares system. -/
theorem c7_counterexample :
    p12cex.Db2 = [0] ∧
      stackB 1 p12cex pNcex pNcex = [RFloat.inf true, RFloat.fin 0, RFloat.fin 0] ∧
      boolSelect ((stackB 1 p12cex pNcex pNcex).map (fun v => !v.isnan))
          (stackB 1 p12cex pNcex pNcex) =
        [RFloat.inf true, RFloat.fin 0, RFloat.fin 0] ∧
      (keptRows 1 p12cex pNcex pNcex).length = 3 := by
  refine ⟨rfl, ?_, ?_, ?_⟩ <;> with_unfolding_all rfl

/-- C10 (amended): after NaN-row filtering, the first printed diagnostic is
the norm of the filtered observation vector and the second is the Frobenius
norm of the broadcast array with entries b_i - A_ij * x_j (numpy's b - A * x
with elementwise product), not the residual norm of the matrix-vector
product b - A·x; norms are represented by their squares. -/
theorem c10_printed_diagnostics (self : UwbCalibrate)
    (solver : List (Fin 3 → RFloat) → List RFloat → Fin 3 → RFloat)
    (a0 a1 a2 : ℤ) (d : List ((ℤ × ℤ) × PairData)) (p1 p2 p3 : PairData)
    (hb : self.board_ids = some [a0, a1, a2]) (hd : self.data = some d)
    (h1 : dictGet d (a0, a1) = some p1) (h2 : dictGet d (a0, a2) = some p2)
    (h3 : dictGet d (a1, a2) = some p3)
    (hu1 : p1.uniform) (hu2 : p2.uniform) (hu3 : p3.uniform) :
    (calibrate_antennas self solver).map (fun o => (o.diag1, o.diag2)) =
      Except.ok
        (sumSqRF ((keptRows self.twr_type p1 p2 p3).map Prod.snd),
          frobSq ((keptRows self.twr_type p1 p2 p3).map Prod.fst)
            ((keptRows self.twr_type p1 p2 p3).map Prod.snd)
            (solver ((keptRows self.twr_type p1 p2 p3).map Prod.fst)
              ((keptRows self.twr_type p1 p2 p3).map Prod.snd))) := by
  rw [calibrate_antennas_spec self solver a0 a1 a2 d p1 p2 p3 hb hd h1 h2 h3 hu1 hu2 hu3]
  rfl

theorem c10_witness :
    (calibrate_antennas selfW constSolver).map (fun o => (o.diag1, o.diag2)) =
      Except.ok
        (sumSqRF ((keptRows selfW.twr_type pNcex pNcex pNcex).map Prod.snd),
          frobSq ((keptRows selfW.twr_type pNcex pNcex pNcex).map Prod.fst)
            ((keptRows selfW.twr_type pNcex pNcex pNcex).map Prod.snd)
            (constSolver ((keptRows selfW.twr_type pNcex pNcex pNcex).map Prod.fst)
              ((keptRows selfW.twr_type pNcex pNcex pNcex).map Prod.snd))) :=
  c10_printed_diagnostics selfW constSolver 1 2 3
    [((1, 2), pNcex), ((1, 3), pNcex), ((2, 3), pNcex)] pNcex pNcex pNcex
    rfl rfl rfl rfl rfl (by decide) (by decide) (by decide)

/-- C10 counterexample: on a concrete instance whose filtered system is
exactly solvable by x = (1,1,1) (residual zero, certified by the second
conjunct), the second printed diagnostic is 9/2 (squared), not the residual
norm 0: the code computes norm(b - A * x) with numpy's elementwise broadcast
product instead of the matrix-vector product. -/
theorem c10_counterexample :
    calibrate_antennas selfC10 constSolver = Except.ok
        { delays := [(1, RFloat.fin 1), (2, RFloat.fin 1), (3, RFloat.fin 1)]
          diag1 := RFloat.fin 3
          diag2 := RFloat.fin (9 / 2) } ∧
      residualSq (stackA 1 pC10 pC10 pC10) (stackB 1 pC10 pC10 pC10)
          (fun _ => RFloat.fin 1) = RFloat.fin 0 ∧
      RFloat.fin (9 / 2) ≠ RFloat.fin 0 := by
  refine ⟨?_, ?_, ?_⟩
  · with_unfolding_all rfl
  · with_unfolding_all rfl
  · with_unfolding_all decide
